import Mathlib

/-!
Verification development for the Canvas notification-synchronization script
(`Update_obervers_notifications.py`).

The script enumerates courses by term, collects observer user ids per course,
deduplicates them, and for each user rewrites every communication-channel
notification preference that does not already match a desired frequency,
skipping an exclusion list.  The definitions below are a shallow embedding of
that script: pure fragments become Lean functions; the remote API (course
member listings, user lookup, preference GET, preference PUT) is modelled as
explicit data carried by environment records, with each call's result either a
value or an exception tag; thread-pool futures become an explicit capture
discipline; and wall-clock timestamps are abstracted into opaque string
parameters.
-/

/-- Exception classes that a remote call can surface, mirroring the script's
handlers.  The first five are the `canvasapi` exception classes the script
names in its `except` clauses; `transport` stands for the `requests`
transport-level exceptions (timeout, connection error, proxy error) that no
handler in the script names. -/
inductive FetchErr where
  | badRequest
  | invalidToken
  | unauthorized
  | forbidden
  | resourceMissing
  | transport
deriving DecidableEq, Repr

/-- One entry of a channel's `notification_preferences` response body:
a notification key and its current frequency. -/
structure Preference where
  notification : String
  frequency : String
deriving DecidableEq, Repr

/-- One communication channel of a user: its id and the string the script
prints for it (Python `str(channel)`). -/
structure Channel where
  id : Nat
  descr : String
deriving DecidableEq, Repr

/-- NOTIFICATION_OPTIONS from the script's configuration block: index 0..3
select the desired frequency. -/
def NOTIFICATION_OPTIONS : List String :=
  ["never", "immediately", "daily", "weekly"]

/-- EXCLUDED_NOTIFICATIONS from the script's configuration block: the
notification categories for which no update is submitted. -/
def EXCLUDED_NOTIFICATIONS : List String :=
  ["confirm_sms_communication_channel", "account_user_notification"]

/-- MAX_THREADS from the script's configuration block (width of the course
and user thread pools). -/
def MAX_THREADS : Nat := 20

/-- A string of `n` spaces (for Python format-specifier padding). -/
def spaces (n : Nat) : String := String.mk (List.replicate n ' ')

/-- A string of `n` dashes (Python's `"-" * n`). -/
def dashes (n : Nat) : String := String.mk (List.replicate n '-')

/-- Python's center-alignment format specifier `{s:^w}`: pad `s` with spaces
to width `w`, extra space going to the right. -/
def padCenter (s : String) (w : Nat) : String :=
  if s.length ≥ w then s
  else spaces ((w - s.length) / 2) ++ s ++ spaces (w - s.length - (w - s.length) / 2)

/-- Python's left-justify format specifier `{s:<w}`. -/
def padRight (s : String) (w : Nat) : String :=
  if s.length ≥ w then s else s ++ spaces (w - s.length)

/-- Python's right-justify format specifier `{s:>w}`. -/
def padLeft (s : String) (w : Nat) : String :=
  if s.length ≥ w then s else spaces (w - s.length) ++ s

/-- Minimal JSON values, used to state the PUT request body exactly. -/
inductive Json where
  | str : String → Json
  | arr : List Json → Json
  | obj : List (String × Json) → Json

/-- The changeset filter from `update_user_notification_preferences`
(lines 379-384): keep exactly the fetched preferences whose current frequency
differs from the desired one and whose notification key is not excluded. -/
def changeset (desired : String) (prefs : List Preference) : List Preference :=
  prefs.filter (fun p =>
    decide (p.frequency ≠ desired ∧ p.notification ∉ EXCLUDED_NOTIFICATIONS))

/-- A PUT request issued by `send_to_canvas`: the channel id and notification
key it targets, the full request URL, and the JSON body. -/
structure PutCall where
  channelId : Nat
  key : String
  url : String
  payload : Json

/-- The request body built by `send_to_canvas` (line 418):
`{"notification_preferences": [{"frequency": desired}]}`. -/
def put_payload (desired : String) : Json :=
  Json.obj [("notification_preferences",
    Json.arr [Json.obj [("frequency", Json.str desired)]])]

/-- Modelled from the spec: the documented PUT endpoint
`PUT {base_url}api/v1/users/self/communication_channels/{channel_id}/notification_preferences/{notification_key}?as_user_id={user_id}`. -/
def spec_put_url (base : String) (userId channelId : Nat) (key : String) : String :=
  base ++ "api/v1/users/self/communication_channels/" ++ toString channelId ++
    "/notification_preferences/" ++ key ++ "?as_user_id=" ++ toString userId

/-- Modelled from the spec: the documented PUT body, a
`notification_preferences` array holding a single object with the one
desired `frequency`. -/
def spec_put_payload (desired : String) : Json :=
  Json.obj [("notification_preferences",
    Json.arr [Json.obj [("frequency", Json.str desired)]])]

/-- The outcome line `send_to_canvas` returns (line 445), with the verdict
text (`OK` or `FAILED - status`) passed in. -/
def outcome_line (key desired verdict : String) : String :=
  padCenter "-" 10 ++ padRight key 45 ++ padLeft ("=> " ++ desired) 10 ++
    " ( " ++ verdict ++ " )"

/-- Embedding of `send_to_canvas` (lines 414-445).  `put` models the remote
server's response to the PUT, keyed by channel id and notification key: either
a status code or a raised exception.  The function returns the request it
issued together with either the outcome line (success path: `OK` when
`response.ok`, i.e. status < 400, otherwise `FAILED - status`) or the
exception: every `canvasapi` exception handler re-raises, and transport
exceptions have no handler, so every exception propagates. -/
def send_to_canvas (base : String) (userId : Nat)
    (put : Nat → String → Except FetchErr Nat) (desired : String)
    (c : Channel) (p : Preference) : PutCall × Except FetchErr String :=
  let call : PutCall :=
    ⟨c.id, p.notification,
      base ++ "api/v1/users/self/communication_channels/" ++ toString c.id ++
        "/notification_preferences/" ++ p.notification ++ "?as_user_id=" ++
        toString userId,
      put_payload desired⟩
  (call,
    match put c.id p.notification with
    | Except.error e => Except.error e
    | Except.ok status =>
        Except.ok (outcome_line p.notification desired
          (if status < 400 then "OK" else "FAILED - " ++ toString status)))

/-- The result-collection loop over the inner pool's futures (lines 405-406):
`future.result()` re-raises the first captured exception in submission order;
otherwise all outcome lines are gathered. -/
def collect_results : List (Except FetchErr String) → Except FetchErr (List String)
  | [] => Except.ok []
  | Except.error e :: _ => Except.error e
  | Except.ok s :: rest =>
      match collect_results rest with
      | Except.error e => Except.error e
      | Except.ok ls => Except.ok (s :: ls)

/-- A user as the remote side presents it to the script: id, display name,
communication channels, and the remote responses to the per-channel
preference GET (keyed by channel id) and the per-preference PUT (keyed by
channel id and notification key). -/
structure CanvasUser where
  id : Nat
  name : String
  channels : List Channel
  fetchPrefs : Nat → Except FetchErr (List Preference)
  putStatus : Nat → String → Except FetchErr Nat

/-- Control outcome of processing one channel inside
`update_user_notification_preferences`: fall through to the next channel,
return from the whole function (the empty-changeset branch's `return`), or
propagate an exception. -/
inductive Ctrl where
  | next
  | ret
  | raise (e : FetchErr)
deriving DecidableEq, Repr

/-- What one iteration of the channel loop produced: the lines appended to
`text_output`, the PUT requests actually issued (the inner pool runs every
submitted write before results are collected), and the control outcome. -/
structure ChannelStep where
  lines : List String
  writes : List PutCall
  ctrl : Ctrl

/-- The body of the channel loop of `update_user_notification_preferences`
(lines 348-408), applied to the result of the preference GET for one channel.
The channel header line is appended first.  Exception dispatch follows the
script's handlers: `BadRequest` and `InvalidAccessToken` are re-raised;
`Unauthorized`, `Forbidden` and `ResourceDoesNotExist` are logged and the
loop falls through to the next channel; transport exceptions have no handler
and propagate.  On a successful fetch the changeset is computed; if it is
empty the `No Preferences to update.` marker is appended and the function
returns; otherwise one `send_to_canvas` task per changeset entry is submitted
(all of them run), the results are collected (re-raising the first captured
exception), and `All updates sent.` is appended. -/
def process_fetched (base : String) (userId : Nat)
    (put : Nat → String → Except FetchErr Nat) (desired : String) (c : Channel) :
    Except FetchErr (List Preference) → ChannelStep
  | Except.error FetchErr.badRequest =>
      ⟨[padCenter "-" 10 ++ " " ++ c.descr], [], Ctrl.raise FetchErr.badRequest⟩
  | Except.error FetchErr.invalidToken =>
      ⟨[padCenter "-" 10 ++ " " ++ c.descr], [], Ctrl.raise FetchErr.invalidToken⟩
  | Except.error FetchErr.unauthorized =>
      ⟨[padCenter "-" 10 ++ " " ++ c.descr], [], Ctrl.next⟩
  | Except.error FetchErr.forbidden =>
      ⟨[padCenter "-" 10 ++ " " ++ c.descr], [], Ctrl.next⟩
  | Except.error FetchErr.resourceMissing =>
      ⟨[padCenter "-" 10 ++ " " ++ c.descr], [], Ctrl.next⟩
  | Except.error FetchErr.transport =>
      ⟨[padCenter "-" 10 ++ " " ++ c.descr], [], Ctrl.raise FetchErr.transport⟩
  | Except.ok prefs =>
      let cs := changeset desired prefs
      if cs.length > 0 then
        let results := cs.map (send_to_canvas base userId put desired c)
        match collect_results (results.map Prod.snd) with
        | Except.error e =>
            ⟨[padCenter "-" 10 ++ " " ++ c.descr], results.map Prod.fst,
              Ctrl.raise e⟩
        | Except.ok lines =>
            ⟨[padCenter "-" 10 ++ " " ++ c.descr] ++ lines ++ ["All updates sent."],
              results.map Prod.fst, Ctrl.next⟩
      else
        ⟨[padCenter "-" 10 ++ " " ++ c.descr,
           padCenter "-" 10 ++ padRight "No Preferences to update." 45],
          [], Ctrl.ret⟩

/-- One iteration of the channel loop for channel `c` of user `u`. -/
def process_channel (base : String) (u : CanvasUser) (desired : String)
    (c : Channel) : ChannelStep :=
  process_fetched base u.id u.putStatus desired c (u.fetchPrefs c.id)

/-- The channel loop of `update_user_notification_preferences`, threading the
accumulated `text_output` lines and the trace of issued PUT requests.  A
raised exception discards the accumulated lines (the Python local is lost)
but the PUTs already issued stay issued. -/
def update_loop (base : String) (u : CanvasUser) (desired : String) :
    List Channel → List String → List PutCall →
      Except FetchErr (List String) × List PutCall
  | [], acc, ws => (Except.ok acc, ws)
  | c :: rest, acc, ws =>
      let step := process_channel base u desired c
      match step.ctrl with
      | Ctrl.raise e => (Except.error e, ws ++ step.writes)
      | Ctrl.ret => (Except.ok (acc ++ step.lines), ws ++ step.writes)
      | Ctrl.next =>
          update_loop base u desired rest (acc ++ step.lines) (ws ++ step.writes)

/-- Embedding of `update_user_notification_preferences` (lines 338-411):
iterate the user's communication channels, returning the collected
`text_output` lines (or the propagated exception) together with the trace of
PUT requests issued. -/
def update_user_notification_preferences (base : String) (u : CanvasUser)
    (desired : String) : Except FetchErr (List String) × List PutCall :=
  update_loop base u desired u.channels [] []

/-- Embedding of `submit_user_for_change` (lines 300-335).  `lookup` is the
result of `canvas_instance.get_user(user_id)`, which the function calls with
no surrounding handler, so a lookup failure propagates.  `elapsed` abstracts
the wall-clock elapsed-time text of the final line.  The returned lines are
the `canvas_output` record the function logs at its end; if any exception
propagates, the function never reaches that logging loop and the error
escapes instead. -/
def submit_user_for_change (base : String)
    (lookup : Except FetchErr CanvasUser) (desired : String) (elapsed : String) :
    Except FetchErr (List String) × List PutCall :=
  match lookup with
  | Except.error e => (Except.error e, [])
  | Except.ok u =>
      match update_user_notification_preferences base u desired with
      | (Except.error e, ws) => (Except.error e, ws)
      | (Except.ok out, ws) =>
          (Except.ok
            ([padCenter "-" 10 ++ u.name ++ " (ID: " ++ toString u.id ++ ")",
              dashes 60] ++ out ++
              ["User change time: " ++ elapsed ++ " seconds\n" ++ dashes 60]),
            ws)

/-- State of a `concurrent.futures` future after the pool joins: the task
completed with a value, or its exception was captured by the future. -/
inductive FutureState (α : Type) where
  | completed (v : α)
  | failed (e : FetchErr)
deriving DecidableEq, Repr

/-- Submitting a task to the executor: the future captures either the task's
value or its exception.  The exception is re-raised only if `result()` is
called on the future. -/
def submit_task {α : Type} (r : Except FetchErr α) : FutureState α :=
  match r with
  | Except.ok v => FutureState.completed v
  | Except.error e => FutureState.failed e

/-- The log lines a per-user task contributed to the sink: a completed task
logged its `canvas_output` record; a failed task raised before reaching its
logging loop and contributed nothing. -/
def task_log (f : FutureState (List String)) : List String :=
  match f with
  | FutureState.completed ls => ls
  | FutureState.failed _ => []

/-- Embedding of `iterate_users` (lines 266-297): submit one
`submit_user_for_change` task per user id, then `concurrent.futures.wait` —
the pool joins all futures but never retrieves their results, so captured
exceptions are never re-raised.  `getUser` models
`canvas_instance.get_user` for each user id. -/
def iterate_users (base : String) (getUser : Nat → Except FetchErr CanvasUser)
    (users : List Nat) (desired : String) (elapsed : String) :
    List (FutureState (List String)) :=
  users.map (fun uid =>
    submit_task (submit_user_for_change base (getUser uid) desired elapsed).1)

/-- A course as the remote side presents it: its display name and the result
of listing its members of the chosen enrollment type (the ids, or the
exception the paginated listing raised). -/
structure CourseEnv where
  name : String
  memberIds : Except FetchErr (List Nat)

/-- Embedding of `get_course_user_ids` (lines 244-255): iterate the paginated
user listing appending each id; there is no handler, so a listing exception
propagates. -/
def get_course_user_ids (c : CourseEnv) : Except FetchErr (List Nat) :=
  match c.memberIds with
  | Except.error e => Except.error e
  | Except.ok us => Except.ok (us.foldl (fun acc u => acc ++ [u]) [])

/-- The result-collection loop of `get_user_ids` (lines 234-235): iterating
`executor.map`'s results re-raises the first captured exception in input
order; otherwise each course's ids are prepended
(`all_user_ids = result + all_user_ids`). -/
def collect_user_ids :
    List (Except FetchErr (List Nat)) → List Nat → Except FetchErr (List Nat)
  | [], acc => Except.ok acc
  | Except.error e :: _, _ => Except.error e
  | Except.ok ids :: rest, acc => collect_user_ids rest (ids ++ acc)

/-- Embedding of `get_user_ids` (lines 210-241): `executor.map` submits one
`threaded_courses` task per course (all of them run to completion when the
pool is joined), then the results are iterated and concatenated. -/
def get_user_ids (courses : List CourseEnv) : Except FetchErr (List Nat) :=
  collect_user_ids (courses.map get_course_user_ids) []

/-- Embedding of `remove_duplicates` (lines 258-263): Python's `set()` on the
id list. -/
def remove_duplicates (user_list : List Nat) : Finset Nat :=
  user_list.toFinset

/-- An interleaving of two line sequences: each step emits the next pending
line of one of the two threads. -/
inductive Interleaves : List String → List String → List String → Prop
  | nil : Interleaves [] [] []
  | left {a : String} {as bs t : List String} :
      Interleaves as bs t → Interleaves (a :: as) bs (a :: t)
  | right {b : String} {as bs t : List String} :
      Interleaves as bs t → Interleaves as (b :: bs) (b :: t)

/-- Reachable sink traces when two `submit_user_for_change` tasks emit their
multi-line records concurrently under the script's locking discipline (lines
331-335): FILE_LOCK is acquired inside the per-line `for` loop, so each
single `rootLogger.info` call is atomic, but between two lines of one record
the scheduler may run the other thread's emission.  Hence exactly the
interleavings of the two records are reachable. -/
def per_line_lock_reachable (recA recB trace : List String) : Prop :=
  Interleaves recA recB trace

/-! Helper lemmas. -/

/-- The append-one-by-one fold in `get_course_user_ids` rebuilds the list. -/
theorem foldl_push_eq (us : List Nat) :
    ∀ acc : List Nat, us.foldl (fun a u => a ++ [u]) acc = acc ++ us := by
  induction us with
  | nil => intro acc; simp
  | cons u tl ih => intro acc; simp [List.foldl_cons, ih]

/-- A course whose member listing succeeds contributes exactly its id list. -/
theorem get_course_user_ids_ok (c : CourseEnv) (ids : List Nat)
    (h : c.memberIds = Except.ok ids) : get_course_user_ids c = Except.ok ids := by
  simp [get_course_user_ids, h, foldl_push_eq]

/-- Collecting all-successful results prepends each id list in turn. -/
theorem collect_user_ids_ok (idss : List (List Nat)) :
    ∀ acc : List Nat,
      collect_user_ids (idss.map Except.ok) acc
        = Except.ok (idss.reverse.flatten ++ acc) := by
  induction idss with
  | nil => intro acc; simp [collect_user_ids]
  | cons l ls ih =>
      intro acc
      simp only [List.map_cons, collect_user_ids, ih, List.reverse_cons,
        List.flatten_append]
      simp [List.append_assoc]

/-- Iterating the mapped results re-raises the first captured exception. -/
theorem collect_user_ids_first_error
    (rs : List (Except FetchErr (List Nat))) :
    ∀ (acc : List Nat) (e : FetchErr) (rest : List (Except FetchErr (List Nat))),
      (∀ r ∈ rs, ∃ ids, r = Except.ok ids) →
      collect_user_ids (rs ++ Except.error e :: rest) acc = Except.error e := by
  induction rs with
  | nil => intro acc e rest _; rfl
  | cons r tl ih =>
      intro acc e rest hok
      obtain ⟨ids, hid⟩ := hok r (by simp)
      subst hid
      simp only [List.cons_append, collect_user_ids]
      exact ih _ e rest (fun r hr => hok r (by simp [hr]))

/-- When every course's member listing succeeds, the mapped task results are
the per-course id lists. -/
theorem map_get_course_user_ids_ok (courses : List CourseEnv) :
    ∀ idss : List (List Nat),
      courses.map CourseEnv.memberIds = idss.map Except.ok →
      courses.map get_course_user_ids = idss.map Except.ok := by
  induction courses with
  | nil =>
      intro idss h
      cases idss with
      | nil => rfl
      | cons _ _ => simp at h
  | cons c tl ih =>
      intro idss h
      cases idss with
      | nil => simp at h
      | cons ids tls =>
          simp only [List.map_cons, List.cons.injEq] at h ⊢
          exact ⟨get_course_user_ids_ok c ids h.1, ih tls h.2⟩

/-- When every course's member listing succeeds, `get_user_ids` returns the
reversed concatenation of the per-course id lists. -/
theorem get_user_ids_ok (courses : List CourseEnv) (idss : List (List Nat))
    (h : courses.map CourseEnv.memberIds = idss.map Except.ok) :
    get_user_ids courses = Except.ok idss.reverse.flatten := by
  simp [get_user_ids, map_get_course_user_ids_ok courses idss h,
    collect_user_ids_ok]


/-- On a successful fetch, the PUT requests issued while processing a channel
are exactly one per changeset entry, in changeset order. -/
theorem process_fetched_ok_writes (base : String) (userId : Nat)
    (put : Nat → String → Except FetchErr Nat) (desired : String) (c : Channel)
    (prefs : List Preference) :
    (process_fetched base userId put desired c (Except.ok prefs)).writes
      = (changeset desired prefs).map
          (fun p => (send_to_canvas base userId put desired c p).1) := by
  simp only [process_fetched]
  by_cases hcs : (changeset desired prefs).length > 0
  · simp only [hcs, if_true]
    split
    · simp [List.map_map, Function.comp]
    · simp [List.map_map, Function.comp]
  · have : changeset desired prefs = [] := by
      simpa using List.eq_nil_of_length_eq_zero (Nat.eq_zero_of_not_pos hcs)
    simp [hcs, this]

/-- C1: for every channel whose preference fetch succeeds, a preference is in
the changeset iff its current frequency differs from the desired one and its
notification key is not excluded; the channel's issued writes are exactly one
PUT per changeset entry; no issued write carries an excluded key; and a
preference already at the desired frequency is never in the changeset. -/
theorem C1_changeset_membership_and_writes (base : String) (u : CanvasUser)
    (desired : String) (c : Channel) (prefs : List Preference)
    (h : u.fetchPrefs c.id = Except.ok prefs) :
    (∀ p ∈ prefs, p ∈ changeset desired prefs ↔
        (p.frequency ≠ desired ∧ p.notification ∉ EXCLUDED_NOTIFICATIONS)) ∧
    (process_channel base u desired c).writes
      = (changeset desired prefs).map
          (fun p => (send_to_canvas base u.id u.putStatus desired c p).1) ∧
    (∀ w ∈ (process_channel base u desired c).writes,
        w.key ∉ EXCLUDED_NOTIFICATIONS) ∧
    (∀ p ∈ prefs, p.frequency = desired → p ∉ changeset desired prefs) := by
  have hwrites : (process_channel base u desired c).writes
      = (changeset desired prefs).map
          (fun p => (send_to_canvas base u.id u.putStatus desired c p).1) := by
    rw [process_channel, h, process_fetched_ok_writes]
  refine ⟨?_, hwrites, ?_, ?_⟩
  · intro p hp
    simp [changeset, List.mem_filter, hp]
  · intro w hw
    rw [hwrites] at hw
    obtain ⟨p, hpcs, hwp⟩ := List.mem_map.mp hw
    have hkey : w.key = p.notification := by
      rw [← hwp]; rfl
    have := (List.mem_filter.mp hpcs).2
    rw [hkey]
    exact (of_decide_eq_true this).2
  · intro p hp hfreq hmem
    have := (List.mem_filter.mp hmem).2
    exact (of_decide_eq_true this).1 hfreq

/-- Concrete user for the C1 witness: one channel, one preference needing an
update, one excluded preference needing an update, one already matching. -/
def w1user : CanvasUser :=
  { id := 7, name := "W", channels := [⟨3, "email"⟩],
    fetchPrefs := fun _ => Except.ok
      [⟨"grading", "daily"⟩, ⟨"account_user_notification", "daily"⟩,
       ⟨"due_date", "never"⟩],
    putStatus := fun _ _ => Except.ok 200 }

/-- Witness for C1 at a concrete user and channel. -/
theorem C1_changeset_membership_and_writes_witness :
    (process_channel "b" w1user "never" ⟨3, "email"⟩).writes
      = (changeset "never"
          [⟨"grading", "daily"⟩, ⟨"account_user_notification", "daily"⟩,
           ⟨"due_date", "never"⟩]).map
          (fun p => (send_to_canvas "b" 7 w1user.putStatus "never" ⟨3, "email"⟩ p).1) :=
  (C1_changeset_membership_and_writes "b" w1user "never" ⟨3, "email"⟩ _ rfl).2.1

/-- C10: the exclusion set is the fixed two-element set of the script's
configuration block, and for every preference whose key is not excluded only
the frequency comparison decides changeset membership. -/
theorem C10_excluded_set_and_filter :
    (∀ k : String, k ∈ EXCLUDED_NOTIFICATIONS ↔
        (k = "confirm_sms_communication_channel" ∨
         k = "account_user_notification")) ∧
    (∀ (desired : String) (prefs : List Preference), ∀ p ∈ prefs,
        p.notification ∉ EXCLUDED_NOTIFICATIONS →
        (p ∈ changeset desired prefs ↔ p.frequency ≠ desired)) := by
  constructor
  · intro k
    simp [EXCLUDED_NOTIFICATIONS]
  · intro desired prefs p hp hex
    simp [changeset, List.mem_filter, hp, hex]

/-- Witness for C10: a non-excluded key at a differing frequency is in the
changeset. -/
theorem C10_excluded_set_and_filter_witness :
    (⟨"assignment_created", "daily"⟩ : Preference) ∈
      changeset "never" [⟨"assignment_created", "daily"⟩] :=
  (C10_excluded_set_and_filter.2 "never" [⟨"assignment_created", "daily"⟩]
      ⟨"assignment_created", "daily"⟩ (by simp) (by decide)).mpr (by decide)

/-- C7: deduplication bounds the size by the input length, produces no
duplicates, equals the union of the per-course id sets, is invariant under
reordering the courses, and applied to what `get_user_ids` collects it equals
deduplication of the plain concatenation. -/
theorem C7_deduplication_properties (css css' : List (List Nat))
    (h : css.Perm css') :
    (remove_duplicates css.flatten).card ≤ css.flatten.length ∧
    (remove_duplicates css.flatten).val.Nodup ∧
    remove_duplicates css.flatten
      = css.foldr (fun l acc => l.toFinset ∪ acc) ∅ ∧
    remove_duplicates css.flatten = remove_duplicates css'.flatten ∧
    (∀ (envs : List CourseEnv) (L : List Nat),
        envs.map CourseEnv.memberIds = css.map Except.ok →
        get_user_ids envs = Except.ok L →
        remove_duplicates L = remove_duplicates css.flatten) := by
  refine ⟨List.toFinset_card_le _, Finset.nodup _, ?_, ?_, ?_⟩
  · clear h
    induction css with
    | nil => simp [remove_duplicates]
    | cons l ls ih =>
        simp only [List.flatten_cons, List.foldr_cons, remove_duplicates,
          List.toFinset_append] at *
        rw [ih]
  · exact List.toFinset_eq_of_perm _ _ h.flatten
  · intro envs L hmap hget
    have hok := get_user_ids_ok envs css hmap
    rw [hget] at hok
    have hL : L = css.reverse.flatten := by injection hok
    rw [hL]
    exact List.toFinset_eq_of_perm _ _ ((css.reverse_perm).flatten)

/-- Witness for C7 at the spec's concrete scenario A: courses contributing
ids 1,2,3 and 3,4 deduplicate to the four-element set, independent of course
order. -/
theorem C7_deduplication_properties_witness :
    remove_duplicates ([[1, 2, 3], [3, 4]] : List (List Nat)).flatten
      = remove_duplicates ([[3, 4], [1, 2, 3]] : List (List Nat)).flatten ∧
    remove_duplicates ([[1, 2, 3], [3, 4]] : List (List Nat)).flatten
      = {1, 2, 3, 4} :=
  ⟨(C7_deduplication_properties [[1, 2, 3], [3, 4]] [[3, 4], [1, 2, 3]]
      (by decide)).2.2.2.1, by decide⟩

/-- C8: every write is a PUT to the documented endpoint, its body carries
exactly the one desired frequency in the documented shape, and when the
server answers, an HTTP-success status (`response.ok`, i.e. < 400) is
recorded in the outcome line as `OK` while any non-success status is
recorded as `FAILED - ` with the status code. -/
theorem C8_put_protocol (base : String) (userId : Nat)
    (put : Nat → String → Except FetchErr Nat) (desired : String) (c : Channel)
    (p : Preference) (status : Nat)
    (h : put c.id p.notification = Except.ok status) :
    (send_to_canvas base userId put desired c p).1.url
        = spec_put_url base userId c.id p.notification ∧
    (send_to_canvas base userId put desired c p).1.payload
        = spec_put_payload desired ∧
    (status < 400 →
      (send_to_canvas base userId put desired c p).2
        = Except.ok (outcome_line p.notification desired "OK")) ∧
    (¬ status < 400 →
      (send_to_canvas base userId put desired c p).2
        = Except.ok (outcome_line p.notification desired
            ("FAILED - " ++ toString status))) := by
  refine ⟨rfl, rfl, ?_, ?_⟩
  · intro hs
    simp [send_to_canvas, h, hs]
  · intro hs
    simp [send_to_canvas, h, hs]

/-- Witness for C8 at a concrete request: a 200 response yields the `OK`
outcome line on the documented URL. -/
theorem C8_put_protocol_witness :
    (send_to_canvas "https://canvas.example/" 7 (fun _ _ => Except.ok 200)
        "never" ⟨3, "email"⟩ ⟨"due_date", "daily"⟩).1.url
      = spec_put_url "https://canvas.example/" 7 3 "due_date" ∧
    (send_to_canvas "https://canvas.example/" 7 (fun _ _ => Except.ok 200)
        "never" ⟨3, "email"⟩ ⟨"due_date", "daily"⟩).2
      = Except.ok (outcome_line "due_date" "never" "OK") :=
  ⟨(C8_put_protocol "https://canvas.example/" 7 (fun _ _ => Except.ok 200)
      "never" ⟨3, "email"⟩ ⟨"due_date", "daily"⟩ 200 rfl).1,
   (C8_put_protocol "https://canvas.example/" 7 (fun _ _ => Except.ok 200)
      "never" ⟨3, "email"⟩ ⟨"due_date", "daily"⟩ 200 rfl).2.2.1 (by decide)⟩

/-- Concrete user exhibiting the early return of
`update_user_notification_preferences`: the first channel's preferences are
all already at the desired frequency, the second channel has one preference
that needs updating. -/
def c2user : CanvasUser :=
  { id := 5, name := "Alice", channels := [⟨1, "email"⟩, ⟨2, "push"⟩],
    fetchPrefs := fun cid =>
      if cid = 1 then Except.ok [⟨"grading", "never"⟩]
      else Except.ok [⟨"grading", "daily"⟩],
    putStatus := fun _ _ => Except.ok 200 }

/-- C2: evaluation at the failing input.  The first channel's changeset is
empty, so the function appends the `No Preferences to update.` marker and
RETURNS: the second channel is never fetched or filtered, its header line is
absent, and zero writes are issued — although the second channel's changeset
would have been nonempty (second conjunct). -/
theorem C2_empty_changeset_early_return_eval :
    update_user_notification_preferences "b" c2user "never"
      = (Except.ok [padCenter "-" 10 ++ " " ++ "email",
          padCenter "-" 10 ++ padRight "No Preferences to update." 45], []) ∧
    changeset "never" [⟨"grading", "daily"⟩] = [⟨"grading", "daily"⟩] := by
  exact ⟨rfl, rfl⟩

/-- C3: counterexample.  A transient failure on the first course's member
listing is not caught anywhere: iterating the pool's results re-raises it,
so `get_user_ids` aborts with the exception instead of treating the course as
an empty id list and collecting the sibling course's ids. -/
theorem C3_course_failure_propagates :
    get_user_ids [⟨"Course A", Except.error FetchErr.transport⟩,
                  ⟨"Course B", Except.ok [1]⟩]
      = Except.error FetchErr.transport ∧
    get_user_ids [⟨"Course A", Except.error FetchErr.transport⟩,
                  ⟨"Course B", Except.ok [1]⟩] ≠ Except.ok [1] := by
  have h1 : get_user_ids [⟨"Course A", Except.error FetchErr.transport⟩,
      ⟨"Course B", Except.ok [1]⟩] = Except.error FetchErr.transport := rfl
  refine ⟨h1, ?_⟩
  rw [h1]
  exact fun hcontra => Except.noConfusion hcontra

/-- C3 amended: a transient failure on one course's resolution is not caught;
every course task still runs (the pool joins before results are read), but
collecting the results re-raises the first failure in input order, aborting
`get_user_ids`, so neither the failing course nor any course contributes ids.
When every course succeeds, the reversed concatenation of all id lists is
returned. -/
theorem C3_course_failure_uncaught_amended :
    (∀ (pre post : List CourseEnv) (name : String) (e : FetchErr),
        (∀ c ∈ pre, ∃ ids, c.memberIds = Except.ok ids) →
        get_user_ids (pre ++ (⟨name, Except.error e⟩ : CourseEnv) :: post)
          = Except.error e) ∧
    (∀ (envs : List CourseEnv) (idss : List (List Nat)),
        envs.map CourseEnv.memberIds = idss.map Except.ok →
        get_user_ids envs = Except.ok idss.reverse.flatten) := by
  constructor
  · intro pre post name e hpre
    have hmap : (pre ++ (⟨name, Except.error e⟩ : CourseEnv) :: post).map
        get_course_user_ids
        = pre.map get_course_user_ids ++
            Except.error e :: post.map get_course_user_ids := by
      simp [get_course_user_ids]
    rw [get_user_ids, hmap]
    refine collect_user_ids_first_error _ _ e _ ?_
    intro r hr
    obtain ⟨c, hc, hrc⟩ := List.mem_map.mp hr
    obtain ⟨ids, hids⟩ := hpre c hc
    exact ⟨ids, by rw [← hrc, get_course_user_ids_ok c ids hids]⟩
  · exact fun envs idss h => get_user_ids_ok envs idss h

/-- Witness for the amended C3: one healthy course followed by one failing
course aborts the collection with the failure. -/
theorem C3_course_failure_uncaught_amended_witness :
    get_user_ids [⟨"Course C", Except.ok [4, 5]⟩,
                  ⟨"Course D", Except.error FetchErr.transport⟩]
      = Except.error FetchErr.transport :=
  C3_course_failure_uncaught_amended.1 [⟨"Course C", Except.ok [4, 5]⟩] []
    "Course D" FetchErr.transport
    (by
      intro c hc
      simp only [List.mem_singleton] at hc
      exact ⟨[4, 5], by rw [hc]⟩)

/-- Concrete user for C4: transport failure on the first channel's preference
fetch while the second channel still needs an update. -/
def c4userFetchFail : CanvasUser :=
  { id := 6, name := "Bob", channels := [⟨1, "email"⟩, ⟨2, "push"⟩],
    fetchPrefs := fun cid =>
      if cid = 1 then Except.error FetchErr.transport
      else Except.ok [⟨"grading", "daily"⟩],
    putStatus := fun _ _ => Except.ok 200 }

/-- Concrete user for C4: transport failure on the preference write. -/
def c4userPutFail : CanvasUser :=
  { id := 6, name := "Bob", channels := [⟨1, "email"⟩],
    fetchPrefs := fun _ => Except.ok [⟨"grading", "daily"⟩],
    putStatus := fun _ _ => Except.error FetchErr.transport }

/-- C4: counterexample.  A transport-level error on a preference fetch is not
caught at that call's boundary (the handlers name only `canvasapi` exception
classes): the per-user update aborts with the exception, the second channel is
never synchronized and no failed outcome is recorded (zero writes, zero
lines).  Likewise a transport error on a write re-raises at `future.result()`
and aborts the per-user update. -/
theorem C4_transport_error_propagates :
    (update_user_notification_preferences "b" c4userFetchFail "never").1
      = Except.error FetchErr.transport ∧
    (update_user_notification_preferences "b" c4userFetchFail "never").2 = [] ∧
    (update_user_notification_preferences "b" c4userPutFail "never").1
      = Except.error FetchErr.transport := by
  exact ⟨rfl, rfl, rfl⟩

/-- C4 amended: a transport-level error on a fetch or write propagates out of
the per-user synchronization, aborting that user's remaining channels and
preferences; isolation exists only at the per-user future boundary, so the
per-user outcomes of all other users are unaffected by one user's transient
failure. -/
theorem C4_transport_aborts_single_user_amended :
    (∀ (base : String) (u : CanvasUser) (desired : String) (c : Channel)
        (rest : List Channel),
        u.channels = c :: rest →
        u.fetchPrefs c.id = Except.error FetchErr.transport →
        (update_user_notification_preferences base u desired).1
          = Except.error FetchErr.transport) ∧
    (∀ (base : String) (getU getU' : Nat → Except FetchErr CanvasUser)
        (users : List Nat) (desired elapsed : String) (bad : Nat),
        (∀ v, v ≠ bad → getU v = getU' v) →
        ∀ (i uid : Nat), users[i]? = some uid → uid ≠ bad →
          (iterate_users base getU users desired elapsed)[i]?
            = (iterate_users base getU' users desired elapsed)[i]?) := by
  constructor
  · intro base u desired c rest hch hf
    simp [update_user_notification_preferences, hch, update_loop,
      process_channel, hf, process_fetched]
  · intro base getU getU' users desired elapsed bad hagree i uid hi hne
    simp only [iterate_users, List.getElem?_map, hi, Option.map_some']
    rw [hagree uid hne]

/-- Witness for the amended C4: the transport failure aborts the concrete
user's update with the exception. -/
theorem C4_transport_aborts_single_user_amended_witness :
    (update_user_notification_preferences "b" c4userFetchFail "never").1
      = Except.error FetchErr.transport ∧
    (iterate_users "b" (fun _ => Except.ok c4userFetchFail) [6, 7] "never"
        "0.2")[1]?
      = (iterate_users "b" (fun _ => Except.ok c4userFetchFail) [6, 7] "never"
        "0.2")[1]? :=
  ⟨C4_transport_aborts_single_user_amended.1 "b" c4userFetchFail "never"
      ⟨1, "email"⟩ [⟨2, "push"⟩] rfl rfl,
   C4_transport_aborts_single_user_amended.2 "b"
      (fun _ => Except.ok c4userFetchFail) (fun _ => Except.ok c4userFetchFail)
      [6, 7] "never" "0.2" 6 (fun _ _ => rfl) 1 7 rfl (by decide)⟩

/-- C5: counterexample.  A failed user lookup is not caught inside
`submit_user_for_change`: the call does not return with zero outcomes, it
propagates the exception (which only the surrounding future then captures). -/
theorem C5_user_lookup_failure_escapes :
    submit_user_for_change "b" (Except.error FetchErr.resourceMissing) "never"
        "0.1"
      = (Except.error FetchErr.resourceMissing, []) ∧
    (submit_user_for_change "b" (Except.error FetchErr.resourceMissing) "never"
        "0.1").1 ≠ Except.ok [] := by
  refine ⟨rfl, ?_⟩
  exact fun hcontra => Except.noConfusion hcontra

/-- C5 amended: a failed user lookup propagates out of
`submit_user_for_change` (no handler surrounds `get_user`), with zero writes
issued and zero lines logged; the per-user future captures the exception and
`iterate_users` never retrieves results, so the synchronization pool is not
aborted and still yields one future per submitted user. -/
theorem C5_lookup_failure_future_captured_amended :
    (∀ (base desired elapsed : String) (e : FetchErr),
        submit_user_for_change base (Except.error e) desired elapsed
          = (Except.error e, [])) ∧
    (∀ (base desired elapsed : String) (e : FetchErr)
        (getU : Nat → Except FetchErr CanvasUser) (users : List Nat)
        (i uid : Nat),
        users[i]? = some uid → getU uid = Except.error e →
        (iterate_users base getU users desired elapsed).length = users.length ∧
        (iterate_users base getU users desired elapsed)[i]?
          = some (FutureState.failed e)) := by
  constructor
  · intro base desired elapsed e
    rfl
  · intro base desired elapsed e getU users i uid hi hg
    refine ⟨by simp [iterate_users], ?_⟩
    simp [iterate_users, List.getElem?_map, hi, hg, submit_user_for_change,
      submit_task]

/-- Witness for the amended C5: a vanished user's future is marked failed and
the pool still returns. -/
theorem C5_lookup_failure_future_captured_amended_witness :
    (iterate_users "b" (fun _ => Except.error FetchErr.forbidden) [9] "never"
        "0.1").length = 1 ∧
    (iterate_users "b" (fun _ => Except.error FetchErr.forbidden) [9] "never"
        "0.1")[0]?
      = some (FutureState.failed FetchErr.forbidden) :=
  C5_lookup_failure_future_captured_amended.2 "b" "never" "0.1"
    FetchErr.forbidden (fun _ => Except.error FetchErr.forbidden) [9] 0 9 rfl
    rfl

/-- C9: the user-synchronization phase always returns one joined future per
submitted user; each future holds exactly that user's task result with any
exception captured (results are never retrieved, so it is never re-raised and
cannot abort the run or the other tasks); and a failed user's future
contributes no log lines at all. -/
theorem C9_user_pool_never_reraises (base : String)
    (getU : Nat → Except FetchErr CanvasUser) (users : List Nat)
    (desired elapsed : String) :
    (iterate_users base getU users desired elapsed).length = users.length ∧
    (∀ (i uid : Nat), users[i]? = some uid →
        (iterate_users base getU users desired elapsed)[i]?
          = some (submit_task
              (submit_user_for_change base (getU uid) desired elapsed).1)) ∧
    (∀ (i uid : Nat) (e : FetchErr), users[i]? = some uid →
        (submit_user_for_change base (getU uid) desired elapsed).1
          = Except.error e →
        (iterate_users base getU users desired elapsed)[i]?
          = some (FutureState.failed e) ∧
        task_log (FutureState.failed e) = []) := by
  refine ⟨by simp [iterate_users], ?_, ?_⟩
  · intro i uid hi
    simp [iterate_users, List.getElem?_map, hi]
  · intro i uid e hi he
    refine ⟨?_, rfl⟩
    simp [iterate_users, List.getElem?_map, hi, he, submit_task]

/-- Witness for C9: two users whose lookups both fail still yield two joined
futures, the first marked failed with no log contribution. -/
theorem C9_user_pool_never_reraises_witness :
    (iterate_users "b" (fun _ => Except.error FetchErr.transport) [1, 2]
        "never" "0.2").length = 2 ∧
    (iterate_users "b" (fun _ => Except.error FetchErr.transport) [1, 2]
        "never" "0.2")[0]?
      = some (FutureState.failed FetchErr.transport) ∧
    task_log (FutureState.failed FetchErr.transport) = [] :=
  ⟨(C9_user_pool_never_reraises "b" (fun _ => Except.error FetchErr.transport)
      [1, 2] "never" "0.2").1,
   ((C9_user_pool_never_reraises "b" (fun _ => Except.error FetchErr.transport)
      [1, 2] "never" "0.2").2.2 0 1 FetchErr.transport rfl rfl).1,
   ((C9_user_pool_never_reraises "b" (fun _ => Except.error FetchErr.transport)
      [1, 2] "never" "0.2").2.2 0 1 FetchErr.transport rfl rfl).2⟩

/-- A thread that emits all its lines while the other has none yields its own
record. -/
theorem interleaves_nil_right : ∀ A : List String, Interleaves A [] A := by
  intro A
  induction A with
  | nil => exact Interleaves.nil
  | cons a rest ih => exact Interleaves.left ih

/-- The second thread may emit its whole record before the first resumes. -/
theorem interleaves_front_right (B : List String) :
    ∀ rest : List String, Interleaves rest B (B ++ rest) := by
  induction B with
  | nil => exact fun rest => interleaves_nil_right rest
  | cons b bs ih => exact fun rest => Interleaves.right (ih rest)

/-- After the first thread emits one line, the scheduler may run the second
thread's whole record before the first thread's remaining lines. -/
theorem interleaves_splice_head (A B : List String) (hA : A ≠ []) :
    Interleaves A B (A.take 1 ++ (B ++ A.drop 1)) := by
  cases A with
  | nil => exact absurd rfl hA
  | cons a rest => simpa using Interleaves.left (interleaves_front_right B rest)

/-- Concrete user A for C6 (no channels: its record is the three frame
lines). -/
def c6userA : CanvasUser :=
  { id := 1, name := "A", channels := [],
    fetchPrefs := fun _ => Except.ok [], putStatus := fun _ _ => Except.ok 200 }

/-- Concrete user B for C6. -/
def c6userB : CanvasUser :=
  { id := 2, name := "B", channels := [],
    fetchPrefs := fun _ => Except.ok [], putStatus := fun _ _ => Except.ok 200 }

/-- The multi-line outcome record user A's task logs. -/
def c6recA : List String :=
  task_log (submit_task
    (submit_user_for_change "b" (Except.ok c6userA) "never" "0.3").1)

/-- The multi-line outcome record user B's task logs. -/
def c6recB : List String :=
  task_log (submit_task
    (submit_user_for_change "b" (Except.ok c6userB) "never" "0.3").1)

/-- C6: counterexample.  FILE_LOCK is taken per line, so a trace in which
user B's whole record sits between the first and second lines of user A's
record is reachable, and it is neither of the two record-contiguous traces:
the lines of one record CAN be interleaved in the middle of the other. -/
theorem C6_per_line_lock_allows_mid_record_interleaving :
    per_line_lock_reachable c6recA c6recB
      (c6recA.take 1 ++ (c6recB ++ c6recA.drop 1)) ∧
    c6recA.take 1 ++ (c6recB ++ c6recA.drop 1) ≠ c6recA ++ c6recB ∧
    c6recA.take 1 ++ (c6recB ++ c6recA.drop 1) ≠ c6recB ++ c6recA :=
  ⟨interleaves_splice_head c6recA c6recB (by decide), by decide, by decide⟩

/-- C6 amended: the per-line lock makes each single line atomic and the
emission loop preserves each record's internal order, so every reachable
trace contains each record as an order-preserving subsequence and consists of
exactly the two records' lines — but the records may interleave mid-record. -/
theorem C6_per_line_lock_order_preserving_amended (A B t : List String)
    (h : per_line_lock_reachable A B t) :
    A.Sublist t ∧ B.Sublist t ∧ t.Perm (A ++ B) := by
  induction h with
  | nil => exact ⟨List.Sublist.refl _, List.Sublist.refl _, List.Perm.refl _⟩
  | left h ih => exact ⟨ih.1.cons₂ _, ih.2.1.cons _, ih.2.2.cons _⟩
  | right h ih =>
      exact ⟨ih.1.cons _, ih.2.1.cons₂ _,
        (ih.2.2.cons _).trans List.perm_middle.symm⟩

/-- Witness for the amended C6, at the concrete interleaved trace. -/
theorem C6_per_line_lock_order_preserving_amended_witness :
    c6recA.Sublist (c6recA.take 1 ++ (c6recB ++ c6recA.drop 1)) ∧
    c6recB.Sublist (c6recA.take 1 ++ (c6recB ++ c6recA.drop 1)) ∧
    (c6recA.take 1 ++ (c6recB ++ c6recA.drop 1)).Perm (c6recA ++ c6recB) :=
  C6_per_line_lock_order_preserving_amended c6recA c6recB _
    (interleaves_splice_head c6recA c6recB (by decide))
